import Mathlib

set_option maxHeartbeats 1000000

/-!
Verification of the ITG-3200 gyroscope register driver (`ITG3200.h`,
`Common/ITG3200.c`) against its design specification.

The driver layer is translated directly from the C source.  The bit-field
accessor layer (`I2CDeviceReadBit`, `I2CDeviceReadBits`, `I2CDeviceWriteBit`,
`I2CDeviceWriteBits`, `I2CDeviceReadByte`, `I2CDeviceWriteByte`,
`I2CDeviceReadBytes`) is part of the library but its source file is not part
of this tree, so it is modelled from the specification (section 4.1), as is
the external bus transport (section 6).  The bus is modelled as explicit
state passing: a register file, fault-injection flags per register, and a
log of every attempted transaction.
-/

/-! ### Constants from ITG3200.h -/

def ITG3200_ADDRESS_WRITE : Nat := 0xD0
def ITG3200_ADDRESS_READ : Nat := 0xD1

def ITG3200_RA_WHO_AM_I : Nat := 0x00
def ITG3200_RA_SMPLRT_DIV : Nat := 0x15
def ITG3200_RA_DLPF_FS : Nat := 0x16
def ITG3200_RA_INT_CFG : Nat := 0x17
def ITG3200_RA_INT_STATUS : Nat := 0x1A
def ITG3200_RA_TEMP_OUT_H : Nat := 0x1B
def ITG3200_RA_TEMP_OUT_L : Nat := 0x1C
def ITG3200_RA_GYRO_XOUT_H : Nat := 0x1D
def ITG3200_RA_GYRO_XOUT_L : Nat := 0x1E
def ITG3200_RA_GYRO_YOUT_H : Nat := 0x1F
def ITG3200_RA_GYRO_YOUT_L : Nat := 0x20
def ITG3200_RA_GYRO_ZOUT_H : Nat := 0x21
def ITG3200_RA_GYRO_ZOUT_L : Nat := 0x22
def ITG3200_RA_PWR_MGM : Nat := 0x3E

def ITG3200_DEVID_BIT : Nat := 6
def ITG3200_DEVID_LENGTH : Nat := 6

def ITG3200_DF_FS_SEL_BIT : Nat := 4
def ITG3200_DF_FS_SEL_LENGTH : Nat := 2
def ITG3200_DF_DLPF_CFG_BIT : Nat := 2
def ITG3200_DF_DLPF_CFG_LENGTH : Nat := 3

def ITG3200_FULLSCALE_2000 : Nat := 0x03

def ITG3200_DLPF_BW_256 : Nat := 0x00
def ITG3200_DLPF_BW_5 : Nat := 0x06

def ITG3200_INTCFG_ACTL_BIT : Nat := 7
def ITG3200_INTCFG_OPEN_BIT : Nat := 6
def ITG3200_INTCFG_LATCH_INT_EN_BIT : Nat := 5
def ITG3200_INTCFG_INT_ANYRD_2CLEAR_BIT : Nat := 4
def ITG3200_INTCFG_ITG_RDY_EN_BIT : Nat := 2
def ITG3200_INTCFG_RAW_RDY_EN_BIT : Nat := 0

def ITG3200_INTSTAT_ITG_RDY_BIT : Nat := 2
def ITG3200_INTSTAT_RAW_DATA_READY_BIT : Nat := 0

def ITG3200_PWR_H_RESET_BIT : Nat := 7
def ITG3200_PWR_SLEEP_BIT : Nat := 6
def ITG3200_PWR_STBY_XG_BIT : Nat := 5
def ITG3200_PWR_STBY_YG_BIT : Nat := 4
def ITG3200_PWR_STBY_ZG_BIT : Nat := 3
def ITG3200_PWR_CLK_SEL_BIT : Nat := 2
def ITG3200_PWR_CLK_SEL_LENGTH : Nat := 3

def ITG3200_CLOCK_INTERNAL : Nat := 0x00
def ITG3200_CLOCK_PLL_XGYRO : Nat := 0x01

/-! ### Bus model -/

/-- The single failure kind of the bus transport (spec section 7). -/
inductive BusError
  | busFailure
deriving DecidableEq, Repr

/-- One attempted bus transaction, recorded in the log. -/
inductive Txn
  | readByteT (reg : Nat)
  | readBytesT (reg count : Nat)
  | writeByteT (reg val : Nat)
deriving DecidableEq, Repr

/-- State of the modelled bus and driver: the device's register file,
per-register fault-injection flags, the driver's global scratch buffer
(`unsigned char ITG3200Buffer[6]`, ITG3200.c line 11), and the log of
attempted transactions.  The buffer keeps its stale contents when a burst
read fails. -/
structure BusState where
  regs : Nat → Nat
  failRead : Nat → Bool
  failWrite : Nat → Bool
  buffer : List Nat
  trace : List Txn

/-- Modelled from the spec: external bus transport `readByte` (section 6).
Registers are byte-wide, so reads are truncated to 8 bits.  The attempted
transaction is logged whether or not it fails. -/
def busReadByte (s : BusState) (reg : Nat) : Except BusError Nat × BusState :=
  let s1 : BusState := { s with trace := s.trace ++ [Txn.readByteT reg] }
  if s.failRead reg then (Except.error BusError.busFailure, s1)
  else (Except.ok (s.regs reg % 2 ^ 8), s1)

/-- Modelled from the spec: external bus transport `writeByte` (section 6).
A failed write leaves the register file unchanged. -/
def busWriteByte (s : BusState) (reg v : Nat) : Except BusError Unit × BusState :=
  let s1 : BusState := { s with trace := s.trace ++ [Txn.writeByteT reg v] }
  if s.failWrite reg then (Except.error BusError.busFailure, s1)
  else (Except.ok (),
    { s1 with regs := fun r => if r = reg then v % 2 ^ 8 else s.regs r })

/-- Modelled from the spec: external bus transport `readBytes` (section 6),
a single burst transaction over `count` consecutive registers. -/
def busReadBytes (s : BusState) (reg count : Nat) :
    Except BusError (List Nat) × BusState :=
  let s1 : BusState := { s with trace := s.trace ++ [Txn.readBytesT reg count] }
  if s.failRead reg then (Except.error BusError.busFailure, s1)
  else (Except.ok ((List.range count).map fun i => s.regs (reg + i) % 2 ^ 8), s1)

/-- Apply a pure function to the value of a successful run. -/
def mapOut {α β : Type} (f : α → β) :
    Except BusError α × BusState → Except BusError β × BusState
  | (Except.error e, s) => (Except.error e, s)
  | (Except.ok a, s) => (Except.ok (f a), s)

/-- Sequence two runs, propagating a failure of the first immediately. -/
def andThen {α β : Type} (p : Except BusError α × BusState)
    (f : α → BusState → Except BusError β × BusState) :
    Except BusError β × BusState :=
  match p with
  | (Except.error e, s) => (Except.error e, s)
  | (Except.ok a, s) => f a s

/-! ### Bit-field accessor layer

The `I2CDevice*` accessor source file is not part of this tree; the
definitions below are modelled from the specification, section 4.1. -/

/-- Modelled from the spec: accessor single-byte register read. -/
def I2CDeviceReadByte (s : BusState) (reg : Nat) : Except BusError Nat × BusState :=
  busReadByte s reg

/-- Modelled from the spec: accessor single-byte register write. -/
def I2CDeviceWriteByte (s : BusState) (reg v : Nat) : Except BusError Unit × BusState :=
  busWriteByte s reg v

/-- Modelled from the spec: accessor burst read of `count` consecutive
registers in one transaction, into the driver's fixed buffer (spec section
4.1: "burst-reads count consecutive register addresses ... into a
fixed-size buffer").  On failure the buffer keeps its stale contents. -/
def I2CDeviceReadBytes (s : BusState) (reg count : Nat) :
    Except BusError (List Nat) × BusState :=
  match busReadBytes s reg count with
  | (Except.error e, s1) => (Except.error e, s1)
  | (Except.ok bs, s1) => (Except.ok bs, { s1 with buffer := bs })

/-- Modelled from the spec: `readBit(register, bitPosition)` reads the byte
and returns whether the bit at `bitPosition` (0 = least significant) is set. -/
def I2CDeviceReadBit (s : BusState) (reg bitPos : Nat) :
    Except BusError Bool × BusState :=
  mapOut (fun b => b.testBit bitPos) (busReadByte s reg)

/-- Modelled from the spec: `readBits(register, startBit, length)` reads the
byte, right-shifts and masks to isolate `length` bits whose most significant
bit is at position `startBit`, returning the field right-aligned. -/
def I2CDeviceReadBits (s : BusState) (reg startBit length : Nat) :
    Except BusError Nat × BusState :=
  mapOut (fun b => (b >>> (startBit + 1 - length)) % 2 ^ length)
    (busReadByte s reg)

/-- The byte produced by the read-modify-write of a single bit: set or clear
only the bit at `bitPos` of the 8-bit byte `b`. -/
def wBitByte (b bitPos : Nat) (value : Bool) : Nat :=
  if value then b ||| (1 <<< bitPos)
  else b &&& ((2 ^ 8 - 1) ^^^ ((1 <<< bitPos) &&& (2 ^ 8 - 1)))

/-- Modelled from the spec: `writeBit(register, bitPosition, value)` is a
read-modify-write: read the byte, set or clear only the target bit, write
the byte back. -/
def I2CDeviceWriteBit (s : BusState) (reg bitPos : Nat) (value : Bool) :
    Except BusError Unit × BusState :=
  andThen (busReadByte s reg) fun b s1 =>
    busWriteByte s1 reg (wBitByte b bitPos value)

/-- The byte produced by the read-modify-write of a multi-bit field: clear
the field's bit span in `b` and OR in `value` shifted into position, with
`value` masked to `length` bits. -/
def wbByte (b startBit length value : Nat) : Nat :=
  (b &&& ((2 ^ 8 - 1) ^^^ (((2 ^ length - 1) <<< (startBit + 1 - length)) &&& (2 ^ 8 - 1)))) |||
    ((value <<< (startBit + 1 - length)) &&& ((2 ^ length - 1) <<< (startBit + 1 - length)))

/-- Modelled from the spec: `writeBits(register, startBit, length, value)` is
a read-modify-write of a multi-bit field; out-of-range bits of `value` are
silently masked off. -/
def I2CDeviceWriteBits (s : BusState) (reg startBit length value : Nat) :
    Except BusError Unit × BusState :=
  andThen (busReadByte s reg) fun b s1 =>
    busWriteByte s1 reg (wbByte b startBit length value)

/-! ### Decoder (ITG3200.c lines 389-441)

The C driver computes `((int) firstByte << 8) | secondByte` in a 16-bit
`int`, i.e. the 16-bit two's-complement interpretation of the big-endian
byte pair. -/

/-- 16-bit two's-complement interpretation of a natural number. -/
def toInt16 (u : Nat) : Int :=
  if u % 65536 < 32768 then ((u % 65536 : Nat) : Int)
  else ((u % 65536 : Nat) : Int) - 65536

/-- The driver's two-byte decode: `((int) hi << 8) | lo` in a 16-bit `int`. -/
def decodePair (hi lo : Nat) : Int := toInt16 (hi <<< 8 ||| lo)

/-- The decode rule in the words of the spec, section 4.3: `value =
(firstByte << 8) | secondByte`, interpreted as a 16-bit two's-complement
integer.  Kept separate from `decodePair` for the refinement comparison. -/
def specDecode (firstByte secondByte : Nat) : Int :=
  let u := (firstByte <<< 8 ||| secondByte) % 65536
  if u < 32768 then (u : Int) else (u : Int) - 65536

/-! ### Device driver (Common/ITG3200.c) -/

/-- `ITG3200GetDeviceID` (ITG3200.c line 37). -/
def ITG3200GetDeviceID (s : BusState) : Except BusError Nat × BusState :=
  I2CDeviceReadBits s ITG3200_RA_WHO_AM_I ITG3200_DEVID_BIT ITG3200_DEVID_LENGTH

/-- `ITG3200SetDeviceID` (ITG3200.c line 54).; `void` in C, the accessor outcome is discarded. -/
def ITG3200SetDeviceID (s : BusState) (id : Nat) : BusState :=
  (I2CDeviceWriteBits s ITG3200_RA_WHO_AM_I ITG3200_DEVID_BIT ITG3200_DEVID_LENGTH id).2

/-- `ITG3200GetRate` (ITG3200.c line 83). -/
def ITG3200GetRate (s : BusState) : Except BusError Nat × BusState :=
  I2CDeviceReadByte s ITG3200_RA_SMPLRT_DIV

/-- `ITG3200SetRate` (ITG3200.c line 96).; `void` in C, the accessor outcome is discarded. -/
def ITG3200SetRate (s : BusState) (rate : Nat) : BusState :=
  (I2CDeviceWriteByte s ITG3200_RA_SMPLRT_DIV rate).2

/-- `ITG3200GetFullScaleRange` (ITG3200.c line 118). -/
def ITG3200GetFullScaleRange (s : BusState) : Except BusError Nat × BusState :=
  I2CDeviceReadBits s ITG3200_RA_DLPF_FS ITG3200_DF_FS_SEL_BIT ITG3200_DF_FS_SEL_LENGTH

/-- `ITG3200SetFullScaleRange` (ITG3200.c line 133).; `void` in C, the accessor outcome is discarded. -/
def ITG3200SetFullScaleRange (s : BusState) (range : Nat) : BusState :=
  (I2CDeviceWriteBits s ITG3200_RA_DLPF_FS ITG3200_DF_FS_SEL_BIT
      ITG3200_DF_FS_SEL_LENGTH range).2

/-- `ITG3200GetDLPFBandwidth` (ITG3200.c line 164). -/
def ITG3200GetDLPFBandwidth (s : BusState) : Except BusError Nat × BusState :=
  I2CDeviceReadBits s ITG3200_RA_DLPF_FS ITG3200_DF_DLPF_CFG_BIT
    ITG3200_DF_DLPF_CFG_LENGTH

/-- `ITG3200SetDLPFBandwidth` (ITG3200.c line 180).; `void` in C, the accessor outcome is discarded. -/
def ITG3200SetDLPFBandwidth (s : BusState) (bandwidth : Nat) : BusState :=
  (I2CDeviceWriteBits s ITG3200_RA_DLPF_FS ITG3200_DF_DLPF_CFG_BIT
      ITG3200_DF_DLPF_CFG_LENGTH bandwidth).2

/-- `ITG3200GetInterruptMode` (ITG3200.c line 196). -/
def ITG3200GetInterruptMode (s : BusState) : Except BusError Bool × BusState :=
  I2CDeviceReadBit s ITG3200_RA_INT_CFG ITG3200_INTCFG_ACTL_BIT

/-- `ITG3200SetInterruptMode` (ITG3200.c line 209).; `void` in C, the accessor outcome is discarded. -/
def ITG3200SetInterruptMode (s : BusState) (mode : Bool) : BusState :=
  (I2CDeviceWriteBit s ITG3200_RA_INT_CFG ITG3200_INTCFG_ACTL_BIT mode).2

/-- `ITG3200getInterruptDrive` (ITG3200.c line 224). -/
def ITG3200getInterruptDrive (s : BusState) : Except BusError Bool × BusState :=
  I2CDeviceReadBit s ITG3200_RA_INT_CFG ITG3200_INTCFG_OPEN_BIT

/-- `ITG3200SetInterruptDrive` (ITG3200.c line 237).; `void` in C, the accessor outcome is discarded. -/
def ITG3200SetInterruptDrive (s : BusState) (drive : Bool) : BusState :=
  (I2CDeviceWriteBit s ITG3200_RA_INT_CFG ITG3200_INTCFG_OPEN_BIT drive).2

/-- `ITG3200GetInterruptLatch` (ITG3200.c line 252). -/
def ITG3200GetInterruptLatch (s : BusState) : Except BusError Bool × BusState :=
  I2CDeviceReadBit s ITG3200_RA_INT_CFG ITG3200_INTCFG_LATCH_INT_EN_BIT

/-- `ITG3200SetInterruptLatch` (ITG3200.c line 265).; `void` in C, the accessor outcome is discarded. -/
def ITG3200SetInterruptLatch (s : BusState) (latch : Bool) : BusState :=
  (I2CDeviceWriteBit s ITG3200_RA_INT_CFG ITG3200_INTCFG_LATCH_INT_EN_BIT latch).2

/-- `ITG3200GetInterruptLatchClear` (ITG3200.c line 280). -/
def ITG3200GetInterruptLatchClear (s : BusState) : Except BusError Bool × BusState :=
  I2CDeviceReadBit s ITG3200_RA_INT_CFG ITG3200_INTCFG_INT_ANYRD_2CLEAR_BIT

/-- `ITG3200SetInterruptLatchClear` (ITG3200.c line 293).; `void` in C, the accessor outcome is discarded. -/
def ITG3200SetInterruptLatchClear (s : BusState) (clear : Bool) : BusState :=
  (I2CDeviceWriteBit s ITG3200_RA_INT_CFG ITG3200_INTCFG_INT_ANYRD_2CLEAR_BIT clear).2

/-- `ITG3200GetIntDeviceReadyEnabled` (ITG3200.c line 308). -/
def ITG3200GetIntDeviceReadyEnabled (s : BusState) : Except BusError Bool × BusState :=
  I2CDeviceReadBit s ITG3200_RA_INT_CFG ITG3200_INTCFG_ITG_RDY_EN_BIT

/-- `ITG3200SetIntDeviceReadyEnabled` (ITG3200.c line 321).; `void` in C, the accessor outcome is discarded. -/
def ITG3200SetIntDeviceReadyEnabled (s : BusState) (enabled : Bool) : BusState :=
  (I2CDeviceWriteBit s ITG3200_RA_INT_CFG ITG3200_INTCFG_ITG_RDY_EN_BIT enabled).2

/-- `ITG3200GetIntDataReadyEnabled` (ITG3200.c line 336). -/
def ITG3200GetIntDataReadyEnabled (s : BusState) : Except BusError Bool × BusState :=
  I2CDeviceReadBit s ITG3200_RA_INT_CFG ITG3200_INTCFG_RAW_RDY_EN_BIT

/-- `ITG3200SetIntDataReadyEnabled` (ITG3200.c line 349).; `void` in C, the accessor outcome is discarded. -/
def ITG3200SetIntDataReadyEnabled (s : BusState) (enabled : Bool) : BusState :=
  (I2CDeviceWriteBit s ITG3200_RA_INT_CFG ITG3200_INTCFG_RAW_RDY_EN_BIT enabled).2

/-- `ITG3200GetIntDeviceReadyStatus` (ITG3200.c line 364). -/
def ITG3200GetIntDeviceReadyStatus (s : BusState) : Except BusError Bool × BusState :=
  I2CDeviceReadBit s ITG3200_RA_INT_STATUS ITG3200_INTSTAT_ITG_RDY_BIT

/-- `ITG3200GetIntDataReadyStatus` (ITG3200.c line 378). -/
def ITG3200GetIntDataReadyStatus (s : BusState) : Except BusError Bool × BusState :=
  I2CDeviceReadBit s ITG3200_RA_INT_STATUS ITG3200_INTSTAT_RAW_DATA_READY_BIT

/-- `ITG3200GetTemperature` (ITG3200.c line 389): burst-read 2 bytes at
TEMP_OUT_H into the global buffer, then unconditionally decode
`(ITG3200Buffer[0] << 8) | ITG3200Buffer[1]` — the C ignores the read's
outcome and decodes whatever the buffer holds. -/
def ITG3200GetTemperature (s : BusState) : Int × BusState :=
  let s1 := (I2CDeviceReadBytes s ITG3200_RA_TEMP_OUT_H 2).2
  (decodePair (s1.buffer.getD 0 0) (s1.buffer.getD 1 0), s1)

/-- `ITG3200GetRotation` (ITG3200.c line 402): burst-read 6 bytes at
GYRO_XOUT_H into the global buffer, then unconditionally decode X from
buffer bytes 0-1, Y from bytes 2-3, Z from bytes 4-5. -/
def ITG3200GetRotation (s : BusState) : (Int × Int × Int) × BusState :=
  let s1 := (I2CDeviceReadBytes s ITG3200_RA_GYRO_XOUT_H 6).2
  ((decodePair (s1.buffer.getD 0 0) (s1.buffer.getD 1 0),
    decodePair (s1.buffer.getD 2 0) (s1.buffer.getD 3 0),
    decodePair (s1.buffer.getD 4 0) (s1.buffer.getD 5 0)), s1)

/-- `ITG3200GetRotationX` (ITG3200.c line 415): burst-read 2 bytes into the
global buffer, then unconditionally decode buffer bytes 0-1. -/
def ITG3200GetRotationX (s : BusState) : Int × BusState :=
  let s1 := (I2CDeviceReadBytes s ITG3200_RA_GYRO_XOUT_H 2).2
  (decodePair (s1.buffer.getD 0 0) (s1.buffer.getD 1 0), s1)

/-- `ITG3200GetRotationY` (ITG3200.c line 426): burst-read 2 bytes into the
global buffer, then unconditionally decode buffer bytes 0-1. -/
def ITG3200GetRotationY (s : BusState) : Int × BusState :=
  let s1 := (I2CDeviceReadBytes s ITG3200_RA_GYRO_YOUT_H 2).2
  (decodePair (s1.buffer.getD 0 0) (s1.buffer.getD 1 0), s1)

/-- `ITG3200GetRotationZ` (ITG3200.c line 437): burst-read 2 bytes into the
global buffer, then unconditionally decode buffer bytes 0-1. -/
def ITG3200GetRotationZ (s : BusState) : Int × BusState :=
  let s1 := (I2CDeviceReadBytes s ITG3200_RA_GYRO_ZOUT_H 2).2
  (decodePair (s1.buffer.getD 0 0) (s1.buffer.getD 1 0), s1)

/-- `ITG3200Reset` (ITG3200.c line 449).; `void` in C, the accessor outcome is discarded. -/
def ITG3200Reset (s : BusState) : BusState :=
  (I2CDeviceWriteBit s ITG3200_RA_PWR_MGM ITG3200_PWR_H_RESET_BIT true).2

/-- `ITG3200GetSleepEnabled` (ITG3200.c line 468). -/
def ITG3200GetSleepEnabled (s : BusState) : Except BusError Bool × BusState :=
  I2CDeviceReadBit s ITG3200_RA_PWR_MGM ITG3200_PWR_SLEEP_BIT

/-- `ITG3200SetSleepEnabled` (ITG3200.c line 481).; `void` in C, the accessor outcome is discarded. -/
def ITG3200SetSleepEnabled (s : BusState) (enabled : Bool) : BusState :=
  (I2CDeviceWriteBit s ITG3200_RA_PWR_MGM ITG3200_PWR_SLEEP_BIT enabled).2

/-- `ITG3200GetStandbyXEnabled` (ITG3200.c line 496). -/
def ITG3200GetStandbyXEnabled (s : BusState) : Except BusError Bool × BusState :=
  I2CDeviceReadBit s ITG3200_RA_PWR_MGM ITG3200_PWR_STBY_XG_BIT

/-- `ITG3200SetStandbyXEnabled` (ITG3200.c line 509).; `void` in C, the accessor outcome is discarded. -/
def ITG3200SetStandbyXEnabled (s : BusState) (enabled : Bool) : BusState :=
  (I2CDeviceWriteBit s ITG3200_RA_PWR_MGM ITG3200_PWR_STBY_XG_BIT enabled).2

/-- `ITG3200GetStandbyYEnabled` (ITG3200.c line 524). -/
def ITG3200GetStandbyYEnabled (s : BusState) : Except BusError Bool × BusState :=
  I2CDeviceReadBit s ITG3200_RA_PWR_MGM ITG3200_PWR_STBY_YG_BIT

/-- `ITG3200SetStandbyYEnabled` (ITG3200.c line 537).; `void` in C, the accessor outcome is discarded. -/
def ITG3200SetStandbyYEnabled (s : BusState) (enabled : Bool) : BusState :=
  (I2CDeviceWriteBit s ITG3200_RA_PWR_MGM ITG3200_PWR_STBY_YG_BIT enabled).2

/-- `ITG3200GetStandbyZEnabled` (ITG3200.c line 552). -/
def ITG3200GetStandbyZEnabled (s : BusState) : Except BusError Bool × BusState :=
  I2CDeviceReadBit s ITG3200_RA_PWR_MGM ITG3200_PWR_STBY_ZG_BIT

/-- `ITG3200SetStandbyZEnabled` (ITG3200.c line 565).; `void` in C, the accessor outcome is discarded. -/
def ITG3200SetStandbyZEnabled (s : BusState) (enabled : Bool) : BusState :=
  (I2CDeviceWriteBit s ITG3200_RA_PWR_MGM ITG3200_PWR_STBY_ZG_BIT enabled).2

/-- `ITG3200GetClockSource` (ITG3200.c line 580). -/
def ITG3200GetClockSource (s : BusState) : Except BusError Nat × BusState :=
  I2CDeviceReadBits s ITG3200_RA_PWR_MGM ITG3200_PWR_CLK_SEL_BIT
    ITG3200_PWR_CLK_SEL_LENGTH

/-- `ITG3200SetClockSource` (ITG3200.c line 611).; `void` in C, the accessor outcome is discarded. -/
def ITG3200SetClockSource (s : BusState) (source : Nat) : BusState :=
  (I2CDeviceWriteBits s ITG3200_RA_PWR_MGM ITG3200_PWR_CLK_SEL_BIT
      ITG3200_PWR_CLK_SEL_LENGTH source).2

/-- `ITG3200Initialize` (ITG3200.c line 23): two unconditional `void`
calls — set full-scale range to `ITG3200_FULLSCALE_2000`, then set the
clock source to `ITG3200_CLOCK_PLL_XGYRO`; the second call is made whatever
happened during the first. -/
def ITG3200Initialize (s : BusState) : BusState :=
  ITG3200SetClockSource (ITG3200SetFullScaleRange s ITG3200_FULLSCALE_2000)
    ITG3200_CLOCK_PLL_XGYRO

/-! ### Register map and bit-field descriptor table -/

/-- A bit-field descriptor: register address, most-significant bit position
of the field, and field width in bits (spec section 3). -/
structure FieldDesc where
  reg : Nat
  bit : Nat
  len : Nat
deriving DecidableEq, Repr

/-- The device-ID descriptor declared by the header. -/
def devidField : FieldDesc :=
  FieldDesc.mk ITG3200_RA_WHO_AM_I ITG3200_DEVID_BIT ITG3200_DEVID_LENGTH

/-- Every bit-field descriptor declared in ITG3200.h (single-bit flags have
width 1). -/
def registerFields : List FieldDesc :=
  [devidField,
   FieldDesc.mk ITG3200_RA_DLPF_FS ITG3200_DF_FS_SEL_BIT ITG3200_DF_FS_SEL_LENGTH,
   FieldDesc.mk ITG3200_RA_DLPF_FS ITG3200_DF_DLPF_CFG_BIT ITG3200_DF_DLPF_CFG_LENGTH,
   FieldDesc.mk ITG3200_RA_INT_CFG ITG3200_INTCFG_ACTL_BIT 1,
   FieldDesc.mk ITG3200_RA_INT_CFG ITG3200_INTCFG_OPEN_BIT 1,
   FieldDesc.mk ITG3200_RA_INT_CFG ITG3200_INTCFG_LATCH_INT_EN_BIT 1,
   FieldDesc.mk ITG3200_RA_INT_CFG ITG3200_INTCFG_INT_ANYRD_2CLEAR_BIT 1,
   FieldDesc.mk ITG3200_RA_INT_CFG ITG3200_INTCFG_ITG_RDY_EN_BIT 1,
   FieldDesc.mk ITG3200_RA_INT_CFG ITG3200_INTCFG_RAW_RDY_EN_BIT 1,
   FieldDesc.mk ITG3200_RA_INT_STATUS ITG3200_INTSTAT_ITG_RDY_BIT 1,
   FieldDesc.mk ITG3200_RA_INT_STATUS ITG3200_INTSTAT_RAW_DATA_READY_BIT 1,
   FieldDesc.mk ITG3200_RA_PWR_MGM ITG3200_PWR_H_RESET_BIT 1,
   FieldDesc.mk ITG3200_RA_PWR_MGM ITG3200_PWR_SLEEP_BIT 1,
   FieldDesc.mk ITG3200_RA_PWR_MGM ITG3200_PWR_STBY_XG_BIT 1,
   FieldDesc.mk ITG3200_RA_PWR_MGM ITG3200_PWR_STBY_YG_BIT 1,
   FieldDesc.mk ITG3200_RA_PWR_MGM ITG3200_PWR_STBY_ZG_BIT 1,
   FieldDesc.mk ITG3200_RA_PWR_MGM ITG3200_PWR_CLK_SEL_BIT ITG3200_PWR_CLK_SEL_LENGTH]

/-- The span of bit positions a descriptor occupies: `bit` down to
`bit + 1 - len` (most-significant-bit convention). -/
def FieldDesc.covers (f : FieldDesc) (i : Nat) : Prop :=
  f.bit + 1 - f.len ≤ i ∧ i ≤ f.bit

instance (f : FieldDesc) (i : Nat) : Decidable (f.covers i) := by
  unfold FieldDesc.covers; infer_instance

/-- Two descriptors overlap when they live in the same register and some bit
position lies in both spans. -/
def FieldDesc.overlaps (f g : FieldDesc) : Prop :=
  f.reg = g.reg ∧ ∃ i < 8, f.covers i ∧ g.covers i

instance (f g : FieldDesc) : Decidable (f.overlaps g) := by
  unfold FieldDesc.overlaps; infer_instance

/-- The register addresses of the driver's register map. -/
def registerMap : List Nat :=
  [ITG3200_RA_WHO_AM_I, ITG3200_RA_SMPLRT_DIV, ITG3200_RA_DLPF_FS,
   ITG3200_RA_INT_CFG, ITG3200_RA_INT_STATUS, ITG3200_RA_TEMP_OUT_H,
   ITG3200_RA_TEMP_OUT_L, ITG3200_RA_GYRO_XOUT_H, ITG3200_RA_GYRO_XOUT_L,
   ITG3200_RA_GYRO_YOUT_H, ITG3200_RA_GYRO_YOUT_L, ITG3200_RA_GYRO_ZOUT_H,
   ITG3200_RA_GYRO_ZOUT_L, ITG3200_RA_PWR_MGM]

/-- The register addresses a transaction touches. -/
def txnAddrs : Txn → List Nat
  | Txn.readByteT r => [r]
  | Txn.readBytesT r n => (List.range n).map fun i => r + i
  | Txn.writeByteT r _ => [r]

/-- Whether a transaction is a bus write. -/
def isWriteTxn : Txn → Bool
  | Txn.writeByteT _ _ => true
  | _ => false

/-- Right-aligned value of the field with most-significant bit `startBit` and
width `len` in byte `b` (the accessor's read rule). -/
def fieldGet (b startBit len : Nat) : Nat :=
  (b >>> (startBit + 1 - len)) % 2 ^ len

/-- A bus state with zeroed registers and buffer, no injected faults and an
empty log. -/
def okBus : BusState :=
  BusState.mk (fun _ => 0) (fun _ => false) (fun _ => false)
    [0, 0, 0, 0, 0, 0] []

/-- A bus state on which every transaction fails; registers and the stale
buffer hold zeros. -/
def deadBus : BusState :=
  BusState.mk (fun _ => 0) (fun _ => true) (fun _ => true)
    [0, 0, 0, 0, 0, 0] []

/-- A bus state on which reads succeed but every write transaction fails. -/
def nackBus : BusState :=
  BusState.mk (fun _ => 0x55) (fun _ => false) (fun _ => true)
    [0, 0, 0, 0, 0, 0] []

/-! ### Trace and claim predicates -/

/-- The decode behaviour asserted by claim C1, as a predicate on the starting
bus state: every 2-byte register pair read returns the spec's decode of its
big-endian register pair, the decode is a 16-bit two's-complement value in
−32768..32767, and the four sample pairs decode as listed. -/
def C1Prop (s : BusState) : Prop :=
  (ITG3200GetTemperature s).1 =
    specDecode (s.regs ITG3200_RA_TEMP_OUT_H % 2 ^ 8)
      (s.regs ITG3200_RA_TEMP_OUT_L % 2 ^ 8) ∧
  (ITG3200GetRotation s).1 =
    (specDecode (s.regs ITG3200_RA_GYRO_XOUT_H % 2 ^ 8)
        (s.regs ITG3200_RA_GYRO_XOUT_L % 2 ^ 8),
      specDecode (s.regs ITG3200_RA_GYRO_YOUT_H % 2 ^ 8)
        (s.regs ITG3200_RA_GYRO_YOUT_L % 2 ^ 8),
      specDecode (s.regs ITG3200_RA_GYRO_ZOUT_H % 2 ^ 8)
        (s.regs ITG3200_RA_GYRO_ZOUT_L % 2 ^ 8)) ∧
  (ITG3200GetRotationX s).1 =
    specDecode (s.regs ITG3200_RA_GYRO_XOUT_H % 2 ^ 8)
      (s.regs ITG3200_RA_GYRO_XOUT_L % 2 ^ 8) ∧
  (ITG3200GetRotationY s).1 =
    specDecode (s.regs ITG3200_RA_GYRO_YOUT_H % 2 ^ 8)
      (s.regs ITG3200_RA_GYRO_YOUT_L % 2 ^ 8) ∧
  (ITG3200GetRotationZ s).1 =
    specDecode (s.regs ITG3200_RA_GYRO_ZOUT_H % 2 ^ 8)
      (s.regs ITG3200_RA_GYRO_ZOUT_L % 2 ^ 8) ∧
  (∀ hi lo : Nat, decodePair hi lo = specDecode hi lo) ∧
  (∀ hi lo : Nat, -32768 ≤ decodePair hi lo ∧ decodePair hi lo ≤ 32767) ∧
  decodePair 0x00 0x00 = 0 ∧ decodePair 0x7F 0xFF = 32767 ∧
  decodePair 0x80 0x00 = -32768 ∧ decodePair 0xFF 0xFF = -1

/-- The transaction behaviour asserted by claim C7: the combined rotation
read issues exactly one 6-byte burst at GYRO_XOUT_H and decodes X, Y, Z from
buffer bytes 0-1, 2-3, 4-5; each single-axis read issues exactly one 2-byte
burst at its own axis's high register; no rotation read logs any other
transaction. -/
def C7Prop (s : BusState) : Prop :=
  (ITG3200GetRotation s).2.trace =
    s.trace ++ [Txn.readBytesT ITG3200_RA_GYRO_XOUT_H 6] ∧
  (ITG3200GetRotation s).1 =
    (decodePair (s.regs ITG3200_RA_GYRO_XOUT_H % 2 ^ 8)
        (s.regs ITG3200_RA_GYRO_XOUT_L % 2 ^ 8),
      decodePair (s.regs ITG3200_RA_GYRO_YOUT_H % 2 ^ 8)
        (s.regs ITG3200_RA_GYRO_YOUT_L % 2 ^ 8),
      decodePair (s.regs ITG3200_RA_GYRO_ZOUT_H % 2 ^ 8)
        (s.regs ITG3200_RA_GYRO_ZOUT_L % 2 ^ 8)) ∧
  (ITG3200GetRotationX s).2.trace =
    s.trace ++ [Txn.readBytesT ITG3200_RA_GYRO_XOUT_H 2] ∧
  (ITG3200GetRotationY s).2.trace =
    s.trace ++ [Txn.readBytesT ITG3200_RA_GYRO_YOUT_H 2] ∧
  (ITG3200GetRotationZ s).2.trace =
    s.trace ++ [Txn.readBytesT ITG3200_RA_GYRO_ZOUT_H 2]

/-- The frame property asserted by claim C4 for one `writeBit` call, plus
the identification of the six INT_CFG single-bit setters as `writeBit`
instances at their declared bit positions. -/
def C4Prop (s : BusState) (reg b : Nat) (v : Bool) : Prop :=
  (I2CDeviceWriteBit s reg b v).1 = Except.ok () ∧
  ((I2CDeviceWriteBit s reg b v).2.regs reg).testBit b = v ∧
  (∀ i, i ≠ b → ((I2CDeviceWriteBit s reg b v).2.regs reg).testBit i =
    (s.regs reg % 2 ^ 8).testBit i) ∧
  (∀ r, r ≠ reg → (I2CDeviceWriteBit s reg b v).2.regs r = s.regs r) ∧
  ITG3200SetInterruptMode s v =
    (I2CDeviceWriteBit s ITG3200_RA_INT_CFG ITG3200_INTCFG_ACTL_BIT v).2 ∧
  ITG3200SetInterruptDrive s v =
    (I2CDeviceWriteBit s ITG3200_RA_INT_CFG ITG3200_INTCFG_OPEN_BIT v).2 ∧
  ITG3200SetInterruptLatch s v =
    (I2CDeviceWriteBit s ITG3200_RA_INT_CFG ITG3200_INTCFG_LATCH_INT_EN_BIT v).2 ∧
  ITG3200SetInterruptLatchClear s v =
    (I2CDeviceWriteBit s ITG3200_RA_INT_CFG ITG3200_INTCFG_INT_ANYRD_2CLEAR_BIT v).2 ∧
  ITG3200SetIntDeviceReadyEnabled s v =
    (I2CDeviceWriteBit s ITG3200_RA_INT_CFG ITG3200_INTCFG_ITG_RDY_EN_BIT v).2 ∧
  ITG3200SetIntDataReadyEnabled s v =
    (I2CDeviceWriteBit s ITG3200_RA_INT_CFG ITG3200_INTCFG_RAW_RDY_EN_BIT v).2

/-- The masking round-trip asserted by claim C5 for one field write followed
by a read of the same field. -/
def C5Prop (s : BusState) (reg startBit len v : Nat) : Prop :=
  (I2CDeviceWriteBits s reg startBit len v).1 = Except.ok () ∧
  (I2CDeviceReadBits (I2CDeviceWriteBits s reg startBit len v).2
    reg startBit len).1 = Except.ok (v % 2 ^ len)

/-- The pass-through behaviour asserted by claim C8 for one raw value `v`:
the full-scale, DLPF-bandwidth and clock-source setters succeed on every
input and store exactly `v` masked to the field width. -/
def C8Prop (s : BusState) (v : Nat) : Prop :=
  fieldGet ((ITG3200SetFullScaleRange s v).regs ITG3200_RA_DLPF_FS)
    ITG3200_DF_FS_SEL_BIT ITG3200_DF_FS_SEL_LENGTH =
    v % 2 ^ ITG3200_DF_FS_SEL_LENGTH ∧
  fieldGet ((ITG3200SetDLPFBandwidth s v).regs ITG3200_RA_DLPF_FS)
    ITG3200_DF_DLPF_CFG_BIT ITG3200_DF_DLPF_CFG_LENGTH =
    v % 2 ^ ITG3200_DF_DLPF_CFG_LENGTH ∧
  fieldGet ((ITG3200SetClockSource s v).regs ITG3200_RA_PWR_MGM)
    ITG3200_PWR_CLK_SEL_BIT ITG3200_PWR_CLK_SEL_LENGTH =
    v % 2 ^ ITG3200_PWR_CLK_SEL_LENGTH

/-- A transaction with its write payload forgotten, for comparing the shape
and order of a transaction log. -/
def txnShape : Txn → Txn
  | Txn.writeByteT r _ => Txn.writeByteT r 0
  | t => t

/-- The initialization behaviour asserted by claim C3: result is success;
the log grows by exactly read DLPF_FS, write DLPF_FS, read PWR_MGM, write
PWR_MGM in that order (so exactly two register writes, in order); the
full-scale field of DLPF_FS ends at 0b11 and the clock-source field of
PWR_MGM at 0b001; all other bits of those two registers and all other
registers are unchanged. -/
def C3Prop (s : BusState) : Prop :=
  ( ITG3200Initialize s).trace.map txnShape =
    s.trace.map txnShape ++
      [Txn.readByteT ITG3200_RA_DLPF_FS, Txn.writeByteT ITG3200_RA_DLPF_FS 0,
       Txn.readByteT ITG3200_RA_PWR_MGM, Txn.writeByteT ITG3200_RA_PWR_MGM 0] ∧
  fieldGet (( ITG3200Initialize s).regs ITG3200_RA_DLPF_FS)
    ITG3200_DF_FS_SEL_BIT ITG3200_DF_FS_SEL_LENGTH = 3 ∧
  fieldGet (( ITG3200Initialize s).regs ITG3200_RA_PWR_MGM)
    ITG3200_PWR_CLK_SEL_BIT ITG3200_PWR_CLK_SEL_LENGTH = 1 ∧
  (∀ i, i ≠ 3 → i ≠ 4 →
    (( ITG3200Initialize s).regs ITG3200_RA_DLPF_FS).testBit i =
      (s.regs ITG3200_RA_DLPF_FS % 2 ^ 8).testBit i) ∧
  (∀ i, 3 ≤ i →
    (( ITG3200Initialize s).regs ITG3200_RA_PWR_MGM).testBit i =
      (s.regs ITG3200_RA_PWR_MGM % 2 ^ 8).testBit i) ∧
  (∀ r, r ≠ ITG3200_RA_DLPF_FS → r ≠ ITG3200_RA_PWR_MGM →
    ( ITG3200Initialize s).regs r = s.regs r)

/-- A run that failed cleanly: it returned the bus error, touched no
register, and attempted exactly the transactions `ts`. -/
def FailsCleanly {α : Type} (s : BusState)
    (out : Except BusError α × BusState) (ts : List Txn) : Prop :=
  out.1 = Except.error BusError.busFailure ∧ out.2.regs = s.regs ∧
  out.2.trace = s.trace ++ ts

/-- A run of a `void` driver operation that left every register untouched
and attempted exactly the transactions `ts`. -/
def QuietRun (s s2 : BusState) (ts : List Txn) : Prop :=
  s2.regs = s.regs ∧ s2.trace = s.trace ++ ts

/-- The accessor layer's failure behaviour on a bus whose every transaction
fails (spec sections 4.1 and 7): each accessor call fails fast after its
single attempted transaction — a read-modify-write whose initial read fails
never attempts the write — no register changes, and a failed burst read
leaves the driver buffer stale. -/
def C2AccessorFailProp (s : BusState) : Prop :=
  (∀ reg p vb, FailsCleanly s (I2CDeviceWriteBit s reg p vb)
    [Txn.readByteT reg]) ∧
  (∀ reg sb ln vv, FailsCleanly s (I2CDeviceWriteBits s reg sb ln vv)
    [Txn.readByteT reg]) ∧
  (∀ reg, FailsCleanly s (I2CDeviceReadByte s reg) [Txn.readByteT reg]) ∧
  (∀ reg p, FailsCleanly s (I2CDeviceReadBit s reg p) [Txn.readByteT reg]) ∧
  (∀ reg sb ln, FailsCleanly s (I2CDeviceReadBits s reg sb ln)
    [Txn.readByteT reg]) ∧
  (∀ reg n, FailsCleanly s (I2CDeviceReadBytes s reg n)
    [Txn.readBytesT reg n] ∧ (I2CDeviceReadBytes s reg n).2.buffer = s.buffer)

/-- The driver layer's actual failure behaviour on a bus whose every
transaction fails: the `void` setters perform no retry and leave every
register unmodified but return no error; the value getters forward the
accessor's error verbatim; the burst getters still return a value, decoded
from the stale buffer; and initialization attempts its second operation's
read even though the first operation's read already failed. -/
def C2DriverFailProp (s : BusState) (v : Nat) (bl : Bool) : Prop :=
  QuietRun s (ITG3200SetDeviceID s v) [Txn.readByteT ITG3200_RA_WHO_AM_I] ∧
  QuietRun s (ITG3200SetRate s v) [Txn.writeByteT ITG3200_RA_SMPLRT_DIV v] ∧
  QuietRun s (ITG3200SetFullScaleRange s v) [Txn.readByteT ITG3200_RA_DLPF_FS] ∧
  QuietRun s (ITG3200SetDLPFBandwidth s v) [Txn.readByteT ITG3200_RA_DLPF_FS] ∧
  QuietRun s (ITG3200SetInterruptMode s bl) [Txn.readByteT ITG3200_RA_INT_CFG] ∧
  QuietRun s (ITG3200SetInterruptDrive s bl) [Txn.readByteT ITG3200_RA_INT_CFG] ∧
  QuietRun s (ITG3200SetInterruptLatch s bl) [Txn.readByteT ITG3200_RA_INT_CFG] ∧
  QuietRun s (ITG3200SetInterruptLatchClear s bl) [Txn.readByteT ITG3200_RA_INT_CFG] ∧
  QuietRun s (ITG3200SetIntDeviceReadyEnabled s bl) [Txn.readByteT ITG3200_RA_INT_CFG] ∧
  QuietRun s (ITG3200SetIntDataReadyEnabled s bl) [Txn.readByteT ITG3200_RA_INT_CFG] ∧
  QuietRun s (ITG3200Reset s) [Txn.readByteT ITG3200_RA_PWR_MGM] ∧
  QuietRun s (ITG3200SetSleepEnabled s bl) [Txn.readByteT ITG3200_RA_PWR_MGM] ∧
  QuietRun s (ITG3200SetStandbyXEnabled s bl) [Txn.readByteT ITG3200_RA_PWR_MGM] ∧
  QuietRun s (ITG3200SetStandbyYEnabled s bl) [Txn.readByteT ITG3200_RA_PWR_MGM] ∧
  QuietRun s (ITG3200SetStandbyZEnabled s bl) [Txn.readByteT ITG3200_RA_PWR_MGM] ∧
  QuietRun s (ITG3200SetClockSource s v) [Txn.readByteT ITG3200_RA_PWR_MGM] ∧
  QuietRun s ( ITG3200Initialize s)
    [Txn.readByteT ITG3200_RA_DLPF_FS, Txn.readByteT ITG3200_RA_PWR_MGM] ∧
  FailsCleanly s (ITG3200GetDeviceID s) [Txn.readByteT ITG3200_RA_WHO_AM_I] ∧
  FailsCleanly s (ITG3200GetRate s) [Txn.readByteT ITG3200_RA_SMPLRT_DIV] ∧
  FailsCleanly s (ITG3200GetFullScaleRange s) [Txn.readByteT ITG3200_RA_DLPF_FS] ∧
  FailsCleanly s (ITG3200GetDLPFBandwidth s) [Txn.readByteT ITG3200_RA_DLPF_FS] ∧
  FailsCleanly s (ITG3200GetInterruptMode s) [Txn.readByteT ITG3200_RA_INT_CFG] ∧
  FailsCleanly s (ITG3200getInterruptDrive s) [Txn.readByteT ITG3200_RA_INT_CFG] ∧
  FailsCleanly s (ITG3200GetInterruptLatch s) [Txn.readByteT ITG3200_RA_INT_CFG] ∧
  FailsCleanly s (ITG3200GetInterruptLatchClear s) [Txn.readByteT ITG3200_RA_INT_CFG] ∧
  FailsCleanly s (ITG3200GetIntDeviceReadyEnabled s) [Txn.readByteT ITG3200_RA_INT_CFG] ∧
  FailsCleanly s (ITG3200GetIntDataReadyEnabled s) [Txn.readByteT ITG3200_RA_INT_CFG] ∧
  FailsCleanly s (ITG3200GetIntDeviceReadyStatus s) [Txn.readByteT ITG3200_RA_INT_STATUS] ∧
  FailsCleanly s (ITG3200GetIntDataReadyStatus s) [Txn.readByteT ITG3200_RA_INT_STATUS] ∧
  FailsCleanly s (ITG3200GetSleepEnabled s) [Txn.readByteT ITG3200_RA_PWR_MGM] ∧
  FailsCleanly s (ITG3200GetStandbyXEnabled s) [Txn.readByteT ITG3200_RA_PWR_MGM] ∧
  FailsCleanly s (ITG3200GetStandbyYEnabled s) [Txn.readByteT ITG3200_RA_PWR_MGM] ∧
  FailsCleanly s (ITG3200GetStandbyZEnabled s) [Txn.readByteT ITG3200_RA_PWR_MGM] ∧
  FailsCleanly s (ITG3200GetClockSource s) [Txn.readByteT ITG3200_RA_PWR_MGM] ∧
  ((ITG3200GetTemperature s).1 =
      decodePair (s.buffer.getD 0 0) (s.buffer.getD 1 0) ∧
    QuietRun s (ITG3200GetTemperature s).2
      [Txn.readBytesT ITG3200_RA_TEMP_OUT_H 2] ∧
    (ITG3200GetTemperature s).2.buffer = s.buffer) ∧
  ((ITG3200GetRotation s).1 =
      (decodePair (s.buffer.getD 0 0) (s.buffer.getD 1 0),
       decodePair (s.buffer.getD 2 0) (s.buffer.getD 3 0),
       decodePair (s.buffer.getD 4 0) (s.buffer.getD 5 0)) ∧
    QuietRun s (ITG3200GetRotation s).2
      [Txn.readBytesT ITG3200_RA_GYRO_XOUT_H 6]) ∧
  ((ITG3200GetRotationX s).1 =
      decodePair (s.buffer.getD 0 0) (s.buffer.getD 1 0) ∧
    QuietRun s (ITG3200GetRotationX s).2
      [Txn.readBytesT ITG3200_RA_GYRO_XOUT_H 2]) ∧
  ((ITG3200GetRotationY s).1 =
      decodePair (s.buffer.getD 0 0) (s.buffer.getD 1 0) ∧
    QuietRun s (ITG3200GetRotationY s).2
      [Txn.readBytesT ITG3200_RA_GYRO_YOUT_H 2]) ∧
  ((ITG3200GetRotationZ s).1 =
      decodePair (s.buffer.getD 0 0) (s.buffer.getD 1 0) ∧
    QuietRun s (ITG3200GetRotationZ s).2
      [Txn.readBytesT ITG3200_RA_GYRO_ZOUT_H 2])

/-- Behaviour on a bus whose reads succeed but whose every write fails:
writing operations attempt their read and the single failed write, with the
register left unmodified; the accessor reports the failure, the `void`
driver API discards it. -/
def C2NackProp (t : BusState) (v : Nat) (bl : Bool) : Prop :=
  QuietRun t (ITG3200SetRate t v) [Txn.writeByteT ITG3200_RA_SMPLRT_DIV v] ∧
  ((ITG3200SetClockSource t v).regs = t.regs ∧
    (ITG3200SetClockSource t v).trace.map txnShape =
      t.trace.map txnShape ++ [Txn.readByteT ITG3200_RA_PWR_MGM,
        Txn.writeByteT ITG3200_RA_PWR_MGM 0]) ∧
  ((ITG3200SetFullScaleRange t v).regs = t.regs ∧
    (ITG3200SetFullScaleRange t v).trace.map txnShape =
      t.trace.map txnShape ++ [Txn.readByteT ITG3200_RA_DLPF_FS,
        Txn.writeByteT ITG3200_RA_DLPF_FS 0]) ∧
  (ITG3200SetInterruptMode t bl).regs = t.regs ∧
  (ITG3200Reset t).regs = t.regs ∧
  ( ITG3200Initialize t).regs = t.regs ∧
  (∀ reg sb ln vv, (I2CDeviceWriteBits t reg sb ln vv).1 =
      Except.error BusError.busFailure ∧
    (I2CDeviceWriteBits t reg sb ln vv).2.regs = t.regs) ∧
  (∀ reg p vb, (I2CDeviceWriteBit t reg p vb).1 =
      Except.error BusError.busFailure ∧
    (I2CDeviceWriteBit t reg p vb).2.regs = t.regs)

/-- Claim C10: each getter's run appends exactly one read transaction (never
a write) to the log and leaves the register file untouched, from any state. -/
def C10Prop (s : BusState) : Prop :=
  ((ITG3200GetDeviceID s).2.trace = s.trace ++ [Txn.readByteT ITG3200_RA_WHO_AM_I] ∧
    isWriteTxn (Txn.readByteT ITG3200_RA_WHO_AM_I) = false ∧
    (ITG3200GetDeviceID s).2.regs = s.regs) ∧
  ((ITG3200GetRate s).2.trace = s.trace ++ [Txn.readByteT ITG3200_RA_SMPLRT_DIV] ∧
    isWriteTxn (Txn.readByteT ITG3200_RA_SMPLRT_DIV) = false ∧
    (ITG3200GetRate s).2.regs = s.regs) ∧
  ((ITG3200GetFullScaleRange s).2.trace = s.trace ++ [Txn.readByteT ITG3200_RA_DLPF_FS] ∧
    (ITG3200GetFullScaleRange s).2.regs = s.regs) ∧
  ((ITG3200GetDLPFBandwidth s).2.trace = s.trace ++ [Txn.readByteT ITG3200_RA_DLPF_FS] ∧
    (ITG3200GetDLPFBandwidth s).2.regs = s.regs) ∧
  ((ITG3200GetInterruptMode s).2.trace = s.trace ++ [Txn.readByteT ITG3200_RA_INT_CFG] ∧
    (ITG3200GetInterruptMode s).2.regs = s.regs) ∧
  ((ITG3200getInterruptDrive s).2.trace = s.trace ++ [Txn.readByteT ITG3200_RA_INT_CFG] ∧
    (ITG3200getInterruptDrive s).2.regs = s.regs) ∧
  ((ITG3200GetInterruptLatch s).2.trace = s.trace ++ [Txn.readByteT ITG3200_RA_INT_CFG] ∧
    (ITG3200GetInterruptLatch s).2.regs = s.regs) ∧
  ((ITG3200GetInterruptLatchClear s).2.trace = s.trace ++ [Txn.readByteT ITG3200_RA_INT_CFG] ∧
    (ITG3200GetInterruptLatchClear s).2.regs = s.regs) ∧
  ((ITG3200GetIntDeviceReadyEnabled s).2.trace = s.trace ++ [Txn.readByteT ITG3200_RA_INT_CFG] ∧
    (ITG3200GetIntDeviceReadyEnabled s).2.regs = s.regs) ∧
  ((ITG3200GetIntDataReadyEnabled s).2.trace = s.trace ++ [Txn.readByteT ITG3200_RA_INT_CFG] ∧
    (ITG3200GetIntDataReadyEnabled s).2.regs = s.regs) ∧
  ((ITG3200GetIntDeviceReadyStatus s).2.trace = s.trace ++ [Txn.readByteT ITG3200_RA_INT_STATUS] ∧
    (ITG3200GetIntDeviceReadyStatus s).2.regs = s.regs) ∧
  ((ITG3200GetIntDataReadyStatus s).2.trace = s.trace ++ [Txn.readByteT ITG3200_RA_INT_STATUS] ∧
    (ITG3200GetIntDataReadyStatus s).2.regs = s.regs) ∧
  ((ITG3200GetTemperature s).2.trace = s.trace ++ [Txn.readBytesT ITG3200_RA_TEMP_OUT_H 2] ∧
    isWriteTxn (Txn.readBytesT ITG3200_RA_TEMP_OUT_H 2) = false ∧
    (ITG3200GetTemperature s).2.regs = s.regs) ∧
  ((ITG3200GetRotation s).2.trace = s.trace ++ [Txn.readBytesT ITG3200_RA_GYRO_XOUT_H 6] ∧
    (ITG3200GetRotation s).2.regs = s.regs) ∧
  ((ITG3200GetRotationX s).2.trace = s.trace ++ [Txn.readBytesT ITG3200_RA_GYRO_XOUT_H 2] ∧
    (ITG3200GetRotationX s).2.regs = s.regs) ∧
  ((ITG3200GetRotationY s).2.trace = s.trace ++ [Txn.readBytesT ITG3200_RA_GYRO_YOUT_H 2] ∧
    (ITG3200GetRotationY s).2.regs = s.regs) ∧
  ((ITG3200GetRotationZ s).2.trace = s.trace ++ [Txn.readBytesT ITG3200_RA_GYRO_ZOUT_H 2] ∧
    (ITG3200GetRotationZ s).2.regs = s.regs) ∧
  ((ITG3200GetSleepEnabled s).2.trace = s.trace ++ [Txn.readByteT ITG3200_RA_PWR_MGM] ∧
    (ITG3200GetSleepEnabled s).2.regs = s.regs) ∧
  ((ITG3200GetStandbyXEnabled s).2.trace = s.trace ++ [Txn.readByteT ITG3200_RA_PWR_MGM] ∧
    (ITG3200GetStandbyXEnabled s).2.regs = s.regs) ∧
  ((ITG3200GetStandbyYEnabled s).2.trace = s.trace ++ [Txn.readByteT ITG3200_RA_PWR_MGM] ∧
    (ITG3200GetStandbyYEnabled s).2.regs = s.regs) ∧
  ((ITG3200GetStandbyZEnabled s).2.trace = s.trace ++ [Txn.readByteT ITG3200_RA_PWR_MGM] ∧
    (ITG3200GetStandbyZEnabled s).2.regs = s.regs) ∧
  ((ITG3200GetClockSource s).2.trace = s.trace ++ [Txn.readByteT ITG3200_RA_PWR_MGM] ∧
    (ITG3200GetClockSource s).2.regs = s.regs)

/-- Whether every transaction in `ts` addresses only registers of the
driver's register map. -/
def addrsInMap (ts : List Txn) : Bool :=
  ts.all fun t2 => (txnAddrs t2).all fun r => registerMap.contains r

/-- Claim C9: the driver's fixed protocol constants have the wire-compatible
values, and (starting from an empty log on a responsive bus) every driver
operation logs only transactions addressing registers of the map. -/
def C9Prop (s : BusState) (v : Nat) (bl : Bool) : Prop :=
  (ITG3200_ADDRESS_WRITE = 0xD0 ∧ ITG3200_ADDRESS_READ = 0xD1 ∧
   ITG3200_ADDRESS_WRITE = 2 * 0x68 ∧ ITG3200_ADDRESS_READ = 2 * 0x68 + 1 ∧
   ITG3200_RA_WHO_AM_I = 0x00 ∧ ITG3200_RA_SMPLRT_DIV = 0x15 ∧
   ITG3200_RA_DLPF_FS = 0x16 ∧ ITG3200_RA_INT_CFG = 0x17 ∧
   ITG3200_RA_INT_STATUS = 0x1A ∧ ITG3200_RA_TEMP_OUT_H = 0x1B ∧
   ITG3200_RA_TEMP_OUT_L = 0x1C ∧ ITG3200_RA_GYRO_XOUT_H = 0x1D ∧
   ITG3200_RA_GYRO_XOUT_L = 0x1E ∧ ITG3200_RA_GYRO_YOUT_H = 0x1F ∧
   ITG3200_RA_GYRO_YOUT_L = 0x20 ∧ ITG3200_RA_GYRO_ZOUT_H = 0x21 ∧
   ITG3200_RA_GYRO_ZOUT_L = 0x22 ∧ ITG3200_RA_PWR_MGM = 0x3E) ∧
  addrsInMap (ITG3200GetDeviceID s).2.trace = true ∧
  addrsInMap (ITG3200SetDeviceID s v).trace = true ∧
  addrsInMap (ITG3200GetRate s).2.trace = true ∧
  addrsInMap (ITG3200SetRate s v).trace = true ∧
  addrsInMap (ITG3200GetFullScaleRange s).2.trace = true ∧
  addrsInMap (ITG3200SetFullScaleRange s v).trace = true ∧
  addrsInMap (ITG3200GetDLPFBandwidth s).2.trace = true ∧
  addrsInMap (ITG3200SetDLPFBandwidth s v).trace = true ∧
  addrsInMap (ITG3200GetInterruptMode s).2.trace = true ∧
  addrsInMap (ITG3200SetInterruptMode s bl).trace = true ∧
  addrsInMap (ITG3200getInterruptDrive s).2.trace = true ∧
  addrsInMap (ITG3200SetInterruptDrive s bl).trace = true ∧
  addrsInMap (ITG3200GetInterruptLatch s).2.trace = true ∧
  addrsInMap (ITG3200SetInterruptLatch s bl).trace = true ∧
  addrsInMap (ITG3200GetInterruptLatchClear s).2.trace = true ∧
  addrsInMap (ITG3200SetInterruptLatchClear s bl).trace = true ∧
  addrsInMap (ITG3200GetIntDeviceReadyEnabled s).2.trace = true ∧
  addrsInMap (ITG3200SetIntDeviceReadyEnabled s bl).trace = true ∧
  addrsInMap (ITG3200GetIntDataReadyEnabled s).2.trace = true ∧
  addrsInMap (ITG3200SetIntDataReadyEnabled s bl).trace = true ∧
  addrsInMap (ITG3200GetIntDeviceReadyStatus s).2.trace = true ∧
  addrsInMap (ITG3200GetIntDataReadyStatus s).2.trace = true ∧
  addrsInMap (ITG3200GetTemperature s).2.trace = true ∧
  addrsInMap (ITG3200GetRotation s).2.trace = true ∧
  addrsInMap (ITG3200GetRotationX s).2.trace = true ∧
  addrsInMap (ITG3200GetRotationY s).2.trace = true ∧
  addrsInMap (ITG3200GetRotationZ s).2.trace = true ∧
  addrsInMap (ITG3200Reset s).trace = true ∧
  addrsInMap (ITG3200GetSleepEnabled s).2.trace = true ∧
  addrsInMap (ITG3200SetSleepEnabled s bl).trace = true ∧
  addrsInMap (ITG3200GetStandbyXEnabled s).2.trace = true ∧
  addrsInMap (ITG3200SetStandbyXEnabled s bl).trace = true ∧
  addrsInMap (ITG3200GetStandbyYEnabled s).2.trace = true ∧
  addrsInMap (ITG3200SetStandbyYEnabled s bl).trace = true ∧
  addrsInMap (ITG3200GetStandbyZEnabled s).2.trace = true ∧
  addrsInMap (ITG3200SetStandbyZEnabled s bl).trace = true ∧
  addrsInMap (ITG3200GetClockSource s).2.trace = true ∧
  addrsInMap (ITG3200SetClockSource s v).trace = true ∧
  addrsInMap ( ITG3200Initialize s).trace = true

/-! ### Helper lemmas -/

lemma wbByte_testBit (b startBit len v i : Nat) (hi : i < 8) :
    (wbByte b startBit len v).testBit i =
      if startBit + 1 - len ≤ i ∧ i - (startBit + 1 - len) < len then
        v.testBit (i - (startBit + 1 - len))
      else b.testBit i := by
  simp only [wbByte, Nat.testBit_or, Nat.testBit_and, Nat.testBit_xor,
    Nat.testBit_shiftLeft, Nat.testBit_two_pow_sub_one]
  by_cases h1 : startBit + 1 - len ≤ i
  · by_cases h2 : i - (startBit + 1 - len) < len
    · simp [h1, h2, hi]
    · simp [h1, h2, hi]
  · simp [h1, hi]

lemma testBit_high_false {b i : Nat} (hb : b < 2 ^ 8) (hi : 8 ≤ i) :
    b.testBit i = false :=
  Nat.testBit_lt_two_pow (lt_of_lt_of_le hb (Nat.pow_le_pow_right (by norm_num) hi))

/-- After the write-bits byte transform, reading the field back gives the
value masked to the field width. -/
lemma wbByte_field (b v startBit len : Nat) (hs : startBit < 8)
    (hl : len ≤ startBit + 1) :
    fieldGet (wbByte b startBit len v % 2 ^ 8) startBit len = v % 2 ^ len := by
  apply Nat.eq_of_testBit_eq
  intro i
  simp only [fieldGet, Nat.testBit_mod_two_pow, Nat.testBit_shiftRight]
  by_cases h : i < len
  · have h8 : startBit + 1 - len + i < 8 := by omega
    rw [wbByte_testBit _ _ _ _ _ h8]
    have hc : startBit + 1 - len ≤ startBit + 1 - len + i ∧
        (startBit + 1 - len + i) - (startBit + 1 - len) < len := by omega
    have he : (startBit + 1 - len + i) - (startBit + 1 - len) = i := by omega
    simp [h, hc, h8, he]
  · simp [h]

/-- The write-bits byte transform leaves every bit outside the field span
unchanged. -/
lemma wbByte_preserve (b v startBit len i : Nat) (hb : b < 2 ^ 8)
    (hl : len ≤ startBit + 1)
    (hout : i < startBit + 1 - len ∨ startBit < i) :
    (wbByte b startBit len v % 2 ^ 8).testBit i = b.testBit i := by
  by_cases hi : i < 8
  · rw [Nat.testBit_mod_two_pow]
    rw [wbByte_testBit _ _ _ _ _ hi]
    have hc : ¬ (startBit + 1 - len ≤ i ∧ i - (startBit + 1 - len) < len) := by
      omega
    rw [if_neg hc]
    simp [hi]
  · rw [Nat.testBit_mod_two_pow]
    rw [testBit_high_false hb (by omega)]
    simp [hi]

lemma wBitByte_testBit (b p i : Nat) (v : Bool) (hp : p < 8) (hi : i < 8) :
    (wBitByte b p v).testBit i = if i = p then v else b.testBit i := by
  have h1 : (1 : Nat) <<< p = 2 ^ p := Nat.one_shiftLeft p
  cases v with
  | true =>
      unfold wBitByte
      rw [if_pos rfl]
      simp only [h1, Nat.testBit_or, Nat.testBit_two_pow]
      by_cases h : i = p
      · simp [h]
      · have hne : ¬ p = i := fun hc => h hc.symm
        simp [h, hne]
  | false =>
      unfold wBitByte
      rw [if_neg (by simp)]
      simp only [h1, Nat.testBit_and, Nat.testBit_xor,
        Nat.testBit_two_pow_sub_one, Nat.testBit_two_pow]
      by_cases h : i = p
      · simp [h, hi, hp]
      · have hne : ¬ p = i := fun hc => h hc.symm
        simp [h, hne, hi]

lemma mapOut_snd {α β : Type} (f : α → β) (p : Except BusError α × BusState) :
    (mapOut f p).2 = p.2 := by
  rcases p with ⟨e | a, s⟩ <;> rfl

lemma busReadByte_snd (s : BusState) (reg : Nat) :
    (busReadByte s reg).2 = { s with trace := s.trace ++ [Txn.readByteT reg] } := by
  unfold busReadByte
  cases h : s.failRead reg <;> simp [h]

lemma busReadBytes_snd (s : BusState) (reg n : Nat) :
    (busReadBytes s reg n).2 =
      { s with trace := s.trace ++ [Txn.readBytesT reg n] } := by
  unfold busReadBytes
  cases h : s.failRead reg <;> simp [h]

lemma readBit_run (s : BusState) (reg p : Nat) (hr : s.failRead reg = false) :
    I2CDeviceReadBit s reg p =
      (Except.ok ((s.regs reg % 2 ^ 8).testBit p),
       { s with trace := s.trace ++ [Txn.readByteT reg] }) := by
  simp [I2CDeviceReadBit, mapOut, busReadByte, hr]

lemma readBits_run (s : BusState) (reg startBit len : Nat)
    (hr : s.failRead reg = false) :
    I2CDeviceReadBits s reg startBit len =
      (Except.ok (fieldGet (s.regs reg % 2 ^ 8) startBit len),
       { s with trace := s.trace ++ [Txn.readByteT reg] }) := by
  simp [I2CDeviceReadBits, mapOut, busReadByte, fieldGet, hr]

lemma readBytes_run (s : BusState) (reg n : Nat) (hr : s.failRead reg = false) :
    I2CDeviceReadBytes s reg n =
      (Except.ok ((List.range n).map fun i => s.regs (reg + i) % 2 ^ 8),
       { s with
          buffer := (List.range n).map fun i => s.regs (reg + i) % 2 ^ 8,
          trace := s.trace ++ [Txn.readBytesT reg n] }) := by
  simp [I2CDeviceReadBytes, busReadBytes, hr]

lemma I2CDeviceReadBytes_trace (s : BusState) (reg n : Nat) :
    (I2CDeviceReadBytes s reg n).2.trace = s.trace ++ [Txn.readBytesT reg n] := by
  unfold I2CDeviceReadBytes busReadBytes
  cases h : s.failRead reg <;> simp [h]

lemma I2CDeviceReadBytes_regs (s : BusState) (reg n : Nat) :
    (I2CDeviceReadBytes s reg n).2.regs = s.regs := by
  unfold I2CDeviceReadBytes busReadBytes
  cases h : s.failRead reg <;> simp [h]

lemma writeBit_run (s : BusState) (reg p : Nat) (v : Bool)
    (hr : s.failRead reg = false) (hw : s.failWrite reg = false) :
    I2CDeviceWriteBit s reg p v =
      (Except.ok (),
       BusState.mk
         (fun r => if r = reg then wBitByte (s.regs reg % 2 ^ 8) p v % 2 ^ 8
           else s.regs r)
         s.failRead s.failWrite s.buffer
         (s.trace ++ [Txn.readByteT reg,
           Txn.writeByteT reg (wBitByte (s.regs reg % 2 ^ 8) p v)])) := by
  simp [I2CDeviceWriteBit, andThen, busReadByte, busWriteByte, hr, hw]

lemma writeBits_run (s : BusState) (reg startBit len v : Nat)
    (hr : s.failRead reg = false) (hw : s.failWrite reg = false) :
    I2CDeviceWriteBits s reg startBit len v =
      (Except.ok (),
       BusState.mk
         (fun r => if r = reg then wbByte (s.regs reg % 2 ^ 8) startBit len v % 2 ^ 8
           else s.regs r)
         s.failRead s.failWrite s.buffer
         (s.trace ++ [Txn.readByteT reg,
           Txn.writeByteT reg (wbByte (s.regs reg % 2 ^ 8) startBit len v)])) := by
  simp [I2CDeviceWriteBits, andThen, busReadByte, busWriteByte, hr, hw]

lemma decodePair_eq_spec (hi lo : Nat) : decodePair hi lo = specDecode hi lo := rfl

lemma range2 : List.range 2 = [0, 1] := rfl

lemma range6 : List.range 6 = [0, 1, 2, 3, 4, 5] := rfl

/-- C1: for every 2-byte register pair read (temperature, combined rotation,
and each single-axis rotation read), the decoded result equals
`(firstByte << 8) | secondByte` interpreted as a 16-bit two's-complement
signed integer in −32768..32767; the byte pairs (0x00,0x00), (0x7F,0xFF),
(0x80,0x00) and (0xFF,0xFF) decode to 0, 32767, −32768 and −1. -/
theorem C1_decode_rule (s : BusState)
    (hT : s.failRead ITG3200_RA_TEMP_OUT_H = false)
    (hX : s.failRead ITG3200_RA_GYRO_XOUT_H = false)
    (hY : s.failRead ITG3200_RA_GYRO_YOUT_H = false)
    (hZ : s.failRead ITG3200_RA_GYRO_ZOUT_H = false) :
    C1Prop s := by
  unfold C1Prop
  refine ⟨?_, ?_, ?_, ?_, ?_, fun hi lo => rfl,
    fun hi lo => by unfold decodePair toInt16; split <;> omega,
    by decide, by decide, by decide, by decide⟩
  · unfold ITG3200GetTemperature
    rw [readBytes_run s ITG3200_RA_TEMP_OUT_H 2 hT]
    simp [mapOut, range2, decodePair_eq_spec, ITG3200_RA_TEMP_OUT_H,
      ITG3200_RA_TEMP_OUT_L]
  · unfold ITG3200GetRotation
    rw [readBytes_run s ITG3200_RA_GYRO_XOUT_H 6 hX]
    simp [mapOut, range6, decodePair_eq_spec, ITG3200_RA_GYRO_XOUT_H,
      ITG3200_RA_GYRO_XOUT_L, ITG3200_RA_GYRO_YOUT_H, ITG3200_RA_GYRO_YOUT_L,
      ITG3200_RA_GYRO_ZOUT_H, ITG3200_RA_GYRO_ZOUT_L]
  · unfold ITG3200GetRotationX
    rw [readBytes_run s ITG3200_RA_GYRO_XOUT_H 2 hX]
    simp [mapOut, range2, decodePair_eq_spec, ITG3200_RA_GYRO_XOUT_H,
      ITG3200_RA_GYRO_XOUT_L]
  · unfold ITG3200GetRotationY
    rw [readBytes_run s ITG3200_RA_GYRO_YOUT_H 2 hY]
    simp [mapOut, range2, decodePair_eq_spec, ITG3200_RA_GYRO_YOUT_H,
      ITG3200_RA_GYRO_YOUT_L]
  · unfold ITG3200GetRotationZ
    rw [readBytes_run s ITG3200_RA_GYRO_ZOUT_H 2 hZ]
    simp [mapOut, range2, decodePair_eq_spec, ITG3200_RA_GYRO_ZOUT_H,
      ITG3200_RA_GYRO_ZOUT_L]

/-- Witness for C1 at the concrete all-zero fault-free bus. -/
theorem C1_decode_rule_witness :
    okBus.failRead ITG3200_RA_TEMP_OUT_H = false ∧
    okBus.failRead ITG3200_RA_GYRO_XOUT_H = false ∧
    okBus.failRead ITG3200_RA_GYRO_YOUT_H = false ∧
    okBus.failRead ITG3200_RA_GYRO_ZOUT_H = false ∧
    C1Prop okBus :=
  ⟨rfl, rfl, rfl, rfl, C1_decode_rule okBus rfl rfl rfl rfl⟩

/-- C6 counterexample: the device-ID descriptor declared in the header
(`ITG3200_DEVID_BIT = 6`, `ITG3200_DEVID_LENGTH = 6`) has
position + width = 12, so the claimed invariant `position + width ≤ 8`
fails on a descriptor of the register map. -/
theorem C6_counterexample :
    devidField ∈ registerFields ∧ devidField.bit + devidField.len = 12 ∧
      ¬ (devidField.bit + devidField.len ≤ 8) := by
  decide

/-- C6 (amended): under the most-significant-bit position convention the
header uses, every declared descriptor lies within its byte — position ≤ 7,
1 ≤ width and width ≤ position + 1 — and no two distinct fields declared
within the same register overlap; this holds in particular for the 6-bit
device-ID field at most-significant bit position 6 of WHO_AM_I. -/
theorem C6_amended_descriptor_invariant :
    (∀ f ∈ registerFields, f.bit ≤ 7 ∧ 1 ≤ f.len ∧ f.len ≤ f.bit + 1) ∧
    List.Pairwise (fun f g => ¬ FieldDesc.overlaps f g) registerFields := by
  decide

/-- Witness for the amended C6 invariant at the device-ID descriptor. -/
theorem C6_amended_descriptor_invariant_witness :
    devidField ∈ registerFields ∧
    (devidField.bit ≤ 7 ∧ 1 ≤ devidField.len ∧ devidField.len ≤ devidField.bit + 1) :=
  ⟨by decide, C6_amended_descriptor_invariant.1 devidField (by decide)⟩

/-- C7: the combined rotation read issues exactly one 6-byte burst
transaction starting at GYRO_XOUT_H and decodes X from bytes 0-1, Y from
bytes 2-3, Z from bytes 4-5 of the returned buffer; each single-axis read
issues one independent 2-byte burst at its own high register; no rotation
read issues any other bus transaction. -/
theorem C7_rotation_transactions (s : BusState)
    (hX : s.failRead ITG3200_RA_GYRO_XOUT_H = false) :
    C7Prop s := by
  unfold C7Prop
  refine ⟨?_, ?_, ?_, ?_, ?_⟩
  · simp [ITG3200GetRotation, I2CDeviceReadBytes_trace]
  · unfold ITG3200GetRotation
    rw [readBytes_run s ITG3200_RA_GYRO_XOUT_H 6 hX]
    simp [range6, ITG3200_RA_GYRO_XOUT_H, ITG3200_RA_GYRO_XOUT_L,
      ITG3200_RA_GYRO_YOUT_H, ITG3200_RA_GYRO_YOUT_L, ITG3200_RA_GYRO_ZOUT_H,
      ITG3200_RA_GYRO_ZOUT_L]
  · simp [ITG3200GetRotationX, I2CDeviceReadBytes_trace]
  · simp [ITG3200GetRotationY, I2CDeviceReadBytes_trace]
  · simp [ITG3200GetRotationZ, I2CDeviceReadBytes_trace]

/-- Witness for C7 at the concrete all-zero fault-free bus. -/
theorem C7_rotation_transactions_witness :
    okBus.failRead ITG3200_RA_GYRO_XOUT_H = false ∧ C7Prop okBus :=
  ⟨rfl, C7_rotation_transactions okBus rfl⟩

lemma wBitByte_store_target (x p : Nat) (v : Bool) (hp : p < 8) :
    (wBitByte x p v % 2 ^ 8).testBit p = v := by
  rw [Nat.testBit_mod_two_pow, wBitByte_testBit x p p v hp hp]
  simp [hp]

lemma wBitByte_store_preserve (x p i : Nat) (v : Bool) (hx : x < 2 ^ 8)
    (hp : p < 8) (hne : i ≠ p) :
    (wBitByte x p v % 2 ^ 8).testBit i = x.testBit i := by
  by_cases hi : i < 8
  · rw [Nat.testBit_mod_two_pow, wBitByte_testBit x p i v hp hi]
    simp [hne, hi]
  · rw [Nat.testBit_mod_two_pow, testBit_high_false hx (by omega)]
    simp [hi]

/-- C4: `writeBit(register, b, value)` performs a read-modify-write that
sets or clears only bit `b` and leaves every other bit of the register byte
and every other register unchanged; each single-bit interrupt-configuration
setter sharing INT_CFG is exactly such a `writeBit`, so setting one flag
does not disturb the others. -/
theorem C4_writeBit_frame (s : BusState) (reg b : Nat) (v : Bool)
    (hb : b < 8) (hr : s.failRead reg = false) (hw : s.failWrite reg = false) :
    C4Prop s reg b v := by
  have hlt : s.regs reg % 2 ^ 8 < 2 ^ 8 := Nat.mod_lt _ (by norm_num)
  unfold C4Prop
  refine ⟨?_, ?_, ?_, ?_, rfl, rfl, rfl, rfl, rfl, rfl⟩
  · rw [writeBit_run s reg b v hr hw]
  · rw [writeBit_run s reg b v hr hw]
    simp only []
    rw [if_pos trivial]
    exact wBitByte_store_target _ b v hb
  · intro i hi
    rw [writeBit_run s reg b v hr hw]
    simp only []
    rw [if_pos trivial]
    exact wBitByte_store_preserve _ b i v hlt hb hi
  · intro r hr2
    rw [writeBit_run s reg b v hr hw]
    simp only []
    rw [if_neg hr2]

/-- Witness for C4 at the concrete all-zero fault-free bus, setting the
ACTL bit of INT_CFG. -/
theorem C4_writeBit_frame_witness :
    ITG3200_INTCFG_ACTL_BIT < 8 ∧
    okBus.failRead ITG3200_RA_INT_CFG = false ∧
    okBus.failWrite ITG3200_RA_INT_CFG = false ∧
    C4Prop okBus ITG3200_RA_INT_CFG ITG3200_INTCFG_ACTL_BIT true :=
  ⟨by decide, rfl, rfl,
    C4_writeBit_frame okBus ITG3200_RA_INT_CFG ITG3200_INTCFG_ACTL_BIT true
      (by decide) rfl rfl⟩

/-- C5: for every register, every field within the byte and every value `v`
(including values wider than the field), `writeBits` succeeds with no
validation error and a subsequent `readBits` of the same field returns
`v mod 2^length`: out-of-range bits are silently masked off and the stored
field round-trips exactly. -/
theorem C5_writeBits_readBits_roundtrip (s : BusState) (reg startBit len v : Nat)
    (hs : startBit < 8) (hl : len ≤ startBit + 1)
    (hr : s.failRead reg = false) (hw : s.failWrite reg = false) :
    C5Prop s reg startBit len v := by
  unfold C5Prop
  constructor
  · rw [writeBits_run s reg startBit len v hr hw]
  · have hrd : (I2CDeviceWriteBits s reg startBit len v).2.failRead reg = false := by
      rw [writeBits_run s reg startBit len v hr hw]
      exact hr
    rw [readBits_run _ reg startBit len hrd,
      writeBits_run s reg startBit len v hr hw]
    simp only []
    rw [if_pos trivial, Nat.mod_mod_of_dvd _ dvd_rfl]
    exact congrArg Except.ok (wbByte_field _ v startBit len hs hl)

/-- Witness for C5 at the clock-source field of PWR_MGM with the
out-of-range value 255. -/
theorem C5_writeBits_readBits_roundtrip_witness :
    ITG3200_PWR_CLK_SEL_BIT < 8 ∧
    ITG3200_PWR_CLK_SEL_LENGTH ≤ ITG3200_PWR_CLK_SEL_BIT + 1 ∧
    okBus.failRead ITG3200_RA_PWR_MGM = false ∧
    okBus.failWrite ITG3200_RA_PWR_MGM = false ∧
    C5Prop okBus ITG3200_RA_PWR_MGM ITG3200_PWR_CLK_SEL_BIT
      ITG3200_PWR_CLK_SEL_LENGTH 255 :=
  ⟨by decide, by decide, rfl, rfl,
    C5_writeBits_readBits_roundtrip okBus ITG3200_RA_PWR_MGM
      ITG3200_PWR_CLK_SEL_BIT ITG3200_PWR_CLK_SEL_LENGTH 255
      (by decide) (by decide) rfl rfl⟩

/-- C8: the setters for full-scale range, DLPF bandwidth and clock source
forward every supplied raw value to the field write without validation and
without error — including reserved codes — the only transformation being the
field-width masking of the write-bits primitive. -/
theorem C8_setters_no_validation (s : BusState) (v : Nat)
    (h1 : s.failRead ITG3200_RA_DLPF_FS = false)
    (h2 : s.failWrite ITG3200_RA_DLPF_FS = false)
    (h3 : s.failRead ITG3200_RA_PWR_MGM = false)
    (h4 : s.failWrite ITG3200_RA_PWR_MGM = false) :
    C8Prop s v := by
  unfold C8Prop
  refine ⟨?_, ?_, ?_⟩
  · unfold ITG3200SetFullScaleRange
    rw [writeBits_run s ITG3200_RA_DLPF_FS _ _ v h1 h2]
    simp only []
    rw [if_pos trivial]
    exact wbByte_field _ v _ _ (by decide) (by decide)
  · unfold ITG3200SetDLPFBandwidth
    rw [writeBits_run s ITG3200_RA_DLPF_FS _ _ v h1 h2]
    simp only []
    rw [if_pos trivial]
    exact wbByte_field _ v _ _ (by decide) (by decide)
  · unfold ITG3200SetClockSource
    rw [writeBits_run s ITG3200_RA_PWR_MGM _ _ v h3 h4]
    simp only []
    rw [if_pos trivial]
    exact wbByte_field _ v _ _ (by decide) (by decide)

/-- Witness for C8 at the reserved code 7 (invalid DLPF code, reserved
clock-source code, non-0b11 full-scale code) on the fault-free bus. -/
theorem C8_setters_no_validation_witness :
    okBus.failRead ITG3200_RA_DLPF_FS = false ∧
    okBus.failWrite ITG3200_RA_DLPF_FS = false ∧
    okBus.failRead ITG3200_RA_PWR_MGM = false ∧
    okBus.failWrite ITG3200_RA_PWR_MGM = false ∧
    C8Prop okBus 7 :=
  ⟨rfl, rfl, rfl, rfl, C8_setters_no_validation okBus 7 rfl rfl rfl rfl⟩

/-- C3: from any starting register state (with the two touched registers
responsive), initialization performs exactly two field writes in order —
full-scale range of DLPF_FS to 0b11, then clock source of PWR_MGM to 0b001 —
each a read-modify-write preserving the register's other bits, and writes no
other register. -/
theorem C3_init_two_rmw_writes (s : BusState)
    (h1 : s.failRead ITG3200_RA_DLPF_FS = false)
    (h2 : s.failWrite ITG3200_RA_DLPF_FS = false)
    (h3 : s.failRead ITG3200_RA_PWR_MGM = false)
    (h4 : s.failWrite ITG3200_RA_PWR_MGM = false) :
    C3Prop s := by
  have h3' : (BusState.mk
      (fun r => if r = ITG3200_RA_DLPF_FS then
        wbByte (s.regs ITG3200_RA_DLPF_FS % 2 ^ 8) ITG3200_DF_FS_SEL_BIT
          ITG3200_DF_FS_SEL_LENGTH ITG3200_FULLSCALE_2000 % 2 ^ 8
        else s.regs r)
      s.failRead s.failWrite s.buffer
      (s.trace ++ [Txn.readByteT ITG3200_RA_DLPF_FS,
        Txn.writeByteT ITG3200_RA_DLPF_FS
          (wbByte (s.regs ITG3200_RA_DLPF_FS % 2 ^ 8) ITG3200_DF_FS_SEL_BIT
            ITG3200_DF_FS_SEL_LENGTH ITG3200_FULLSCALE_2000)])).failRead
      ITG3200_RA_PWR_MGM = false := h3
  have h4' : (BusState.mk
      (fun r => if r = ITG3200_RA_DLPF_FS then
        wbByte (s.regs ITG3200_RA_DLPF_FS % 2 ^ 8) ITG3200_DF_FS_SEL_BIT
          ITG3200_DF_FS_SEL_LENGTH ITG3200_FULLSCALE_2000 % 2 ^ 8
        else s.regs r)
      s.failRead s.failWrite s.buffer
      (s.trace ++ [Txn.readByteT ITG3200_RA_DLPF_FS,
        Txn.writeByteT ITG3200_RA_DLPF_FS
          (wbByte (s.regs ITG3200_RA_DLPF_FS % 2 ^ 8) ITG3200_DF_FS_SEL_BIT
            ITG3200_DF_FS_SEL_LENGTH ITG3200_FULLSCALE_2000)])).failWrite
      ITG3200_RA_PWR_MGM = false := h4
  unfold C3Prop ITG3200Initialize ITG3200SetFullScaleRange ITG3200SetClockSource
  rw [writeBits_run s ITG3200_RA_DLPF_FS ITG3200_DF_FS_SEL_BIT
    ITG3200_DF_FS_SEL_LENGTH ITG3200_FULLSCALE_2000 h1 h2]
  simp only []
  rw [writeBits_run _ ITG3200_RA_PWR_MGM ITG3200_PWR_CLK_SEL_BIT
    ITG3200_PWR_CLK_SEL_LENGTH ITG3200_CLOCK_PLL_XGYRO h3' h4']
  simp only []
  refine ⟨?_, ?_, ?_, ?_, ?_, ?_⟩
  · simp [txnShape]
  · rw [if_neg (by decide), if_pos trivial]
    exact wbByte_field _ _ _ _ (by decide) (by decide)
  · rw [if_pos trivial, if_neg (by decide)]
    exact wbByte_field _ _ _ _ (by decide) (by decide)
  · intro i hi3 hi4
    rw [if_neg (by decide), if_pos trivial]
    exact wbByte_preserve _ _ _ _ i (Nat.mod_lt _ (by norm_num)) (by decide)
      (by unfold ITG3200_DF_FS_SEL_BIT ITG3200_DF_FS_SEL_LENGTH; omega)
  · intro i hi
    rw [if_pos trivial, if_neg (by decide)]
    exact wbByte_preserve _ _ _ _ i (Nat.mod_lt _ (by norm_num)) (by decide)
      (by unfold ITG3200_PWR_CLK_SEL_BIT ITG3200_PWR_CLK_SEL_LENGTH; omega)
  · intro r hr1 hr2
    rw [if_neg hr2, if_neg hr1]

/-- Witness for C3 at the concrete all-zero fault-free bus. -/
theorem C3_init_two_rmw_writes_witness :
    okBus.failRead ITG3200_RA_DLPF_FS = false ∧
    okBus.failWrite ITG3200_RA_DLPF_FS = false ∧
    okBus.failRead ITG3200_RA_PWR_MGM = false ∧
    okBus.failWrite ITG3200_RA_PWR_MGM = false ∧
    C3Prop okBus :=
  ⟨rfl, rfl, rfl, rfl, C3_init_two_rmw_writes okBus rfl rfl rfl rfl⟩

/-- C2 counterexample: on the concrete bus where every transaction fails,
the temperature read — whose burst read fails — still returns a decoded
result (0, from the stale zero buffer) rather than any error result of the
operation, and initialization attempts the PWR_MGM read even though the
DLPF_FS read of its first step already failed: the failure is neither
surfaced as an explicit error result of the operation nor does it stop the
sequence, refuting the claim as stated. -/
theorem C2_counterexample :
    (ITG3200GetTemperature deadBus).1 = 0 ∧
    ( ITG3200Initialize deadBus).trace =
      [Txn.readByteT ITG3200_RA_DLPF_FS, Txn.readByteT ITG3200_RA_PWR_MGM] := by
  constructor
  · rfl
  · rfl

/-- C2 (amended): failure handling lives in the accessor layer, which is
fail-fast with no retry — a read-modify-write whose initial read fails
returns the error without attempting the write and leaves the register
unmodified, and a burst read fails as a whole, leaving the buffer stale.
The driver's `void`/value-returning C API surfaces no explicit error result
of its own: setters discard the accessor's outcome (still with no retry and
no register modified on failure), value getters forward the accessor's
outcome verbatim, a failed burst read still yields a value decoded from the
stale buffer, and initialization attempts its second field write regardless
of the first's failure. -/
theorem C2_amended_error_handling (s t : BusState) (v : Nat) (bl : Bool)
    (hs : ∀ r, s.failRead r = true) (hs2 : ∀ r, s.failWrite r = true)
    (ht1 : ∀ r, t.failRead r = false) (ht2 : ∀ r, t.failWrite r = true) :
    C2AccessorFailProp s ∧ C2DriverFailProp s v bl ∧ C2NackProp t v bl := by
  unfold C2AccessorFailProp C2DriverFailProp C2NackProp FailsCleanly QuietRun
  unfold ITG3200Initialize
  simp [ITG3200GetDeviceID, ITG3200SetDeviceID, ITG3200GetRate, ITG3200SetRate,
    ITG3200GetFullScaleRange, ITG3200SetFullScaleRange, ITG3200GetDLPFBandwidth,
    ITG3200SetDLPFBandwidth, ITG3200GetInterruptMode, ITG3200SetInterruptMode,
    ITG3200getInterruptDrive, ITG3200SetInterruptDrive, ITG3200GetInterruptLatch,
    ITG3200SetInterruptLatch, ITG3200GetInterruptLatchClear,
    ITG3200SetInterruptLatchClear, ITG3200GetIntDeviceReadyEnabled,
    ITG3200SetIntDeviceReadyEnabled, ITG3200GetIntDataReadyEnabled,
    ITG3200SetIntDataReadyEnabled, ITG3200GetIntDeviceReadyStatus,
    ITG3200GetIntDataReadyStatus, ITG3200GetTemperature, ITG3200GetRotation,
    ITG3200GetRotationX, ITG3200GetRotationY, ITG3200GetRotationZ, ITG3200Reset,
    ITG3200GetSleepEnabled, ITG3200SetSleepEnabled, ITG3200GetStandbyXEnabled,
    ITG3200SetStandbyXEnabled, ITG3200GetStandbyYEnabled, ITG3200SetStandbyYEnabled,
    ITG3200GetStandbyZEnabled, ITG3200SetStandbyZEnabled, ITG3200GetClockSource,
    ITG3200SetClockSource, I2CDeviceReadBit, I2CDeviceReadBits, I2CDeviceWriteBit,
    I2CDeviceWriteBits, I2CDeviceReadByte, I2CDeviceWriteByte, I2CDeviceReadBytes,
    busReadByte, busWriteByte, busReadBytes, mapOut, andThen, txnShape,
    hs, hs2, ht1, ht2]

/-- Witness for the amended C2 behaviour at the concrete all-failing bus and
the concrete write-failing bus. -/
theorem C2_amended_error_handling_witness :
    (∀ r, deadBus.failRead r = true) ∧ (∀ r, deadBus.failWrite r = true) ∧
    (∀ r, nackBus.failRead r = false) ∧ (∀ r, nackBus.failWrite r = true) ∧
    (C2AccessorFailProp deadBus ∧ C2DriverFailProp deadBus 0x42 true ∧
      C2NackProp nackBus 0x42 true) :=
  ⟨fun _ => rfl, fun _ => rfl, fun _ => rfl, fun _ => rfl,
    C2_amended_error_handling deadBus nackBus 0x42 true
      (fun _ => rfl) (fun _ => rfl) (fun _ => rfl) (fun _ => rfl)⟩

/-- C10: every get operation of the driver issues only bus read transactions
and never a write, so no getter modifies any device register; this holds
from every starting bus state, including faulty ones. -/
theorem C10_getters_never_write (s : BusState) : C10Prop s := by
  unfold C10Prop
  simp [ITG3200GetDeviceID, ITG3200GetRate, ITG3200GetFullScaleRange,
    ITG3200GetDLPFBandwidth, ITG3200GetInterruptMode, ITG3200getInterruptDrive,
    ITG3200GetInterruptLatch, ITG3200GetInterruptLatchClear,
    ITG3200GetIntDeviceReadyEnabled, ITG3200GetIntDataReadyEnabled,
    ITG3200GetIntDeviceReadyStatus, ITG3200GetIntDataReadyStatus,
    ITG3200GetTemperature, ITG3200GetRotation, ITG3200GetRotationX,
    ITG3200GetRotationY, ITG3200GetRotationZ, ITG3200GetSleepEnabled,
    ITG3200GetStandbyXEnabled, ITG3200GetStandbyYEnabled,
    ITG3200GetStandbyZEnabled, ITG3200GetClockSource,
    I2CDeviceReadBit, I2CDeviceReadBits, I2CDeviceReadByte,
    mapOut_snd, busReadByte_snd, I2CDeviceReadBytes_trace,
    I2CDeviceReadBytes_regs, isWriteTxn]

/-- C9: the driver's protocol constants equal the wire-compatible values the
spec fixes (bus write byte 0xD0 / read byte 0xD1, i.e. 7-bit address 0x68,
and the register map with the gyro output registers consecutive), and every
driver operation addresses only registers from this map. -/
theorem C9_protocol_constants (s : BusState) (v : Nat) (bl : Bool)
    (h0 : s.trace = []) (hR : ∀ r, s.failRead r = false)
    (hW : ∀ r, s.failWrite r = false) :
    C9Prop s v bl := by
  unfold C9Prop
  refine ⟨by decide, ?_⟩
  unfold ITG3200Initialize
  simp [ITG3200GetDeviceID, ITG3200SetDeviceID, ITG3200GetRate, ITG3200SetRate,
    ITG3200GetFullScaleRange, ITG3200SetFullScaleRange, ITG3200GetDLPFBandwidth,
    ITG3200SetDLPFBandwidth, ITG3200GetInterruptMode, ITG3200SetInterruptMode,
    ITG3200getInterruptDrive, ITG3200SetInterruptDrive, ITG3200GetInterruptLatch,
    ITG3200SetInterruptLatch, ITG3200GetInterruptLatchClear,
    ITG3200SetInterruptLatchClear, ITG3200GetIntDeviceReadyEnabled,
    ITG3200SetIntDeviceReadyEnabled, ITG3200GetIntDataReadyEnabled,
    ITG3200SetIntDataReadyEnabled, ITG3200GetIntDeviceReadyStatus,
    ITG3200GetIntDataReadyStatus, ITG3200GetTemperature, ITG3200GetRotation,
    ITG3200GetRotationX, ITG3200GetRotationY, ITG3200GetRotationZ, ITG3200Reset,
    ITG3200GetSleepEnabled, ITG3200SetSleepEnabled, ITG3200GetStandbyXEnabled,
    ITG3200SetStandbyXEnabled, ITG3200GetStandbyYEnabled, ITG3200SetStandbyYEnabled,
    ITG3200GetStandbyZEnabled, ITG3200SetStandbyZEnabled, ITG3200GetClockSource,
    ITG3200SetClockSource, I2CDeviceReadBit, I2CDeviceReadBits, I2CDeviceWriteBit,
    I2CDeviceWriteBits, I2CDeviceReadByte, I2CDeviceWriteByte, I2CDeviceReadBytes,
    busReadByte, busWriteByte, busReadBytes, mapOut, andThen,
    addrsInMap, txnAddrs, registerMap, hR, hW, h0,
    ITG3200_RA_WHO_AM_I, ITG3200_RA_SMPLRT_DIV, ITG3200_RA_DLPF_FS,
    ITG3200_RA_INT_CFG, ITG3200_RA_INT_STATUS, ITG3200_RA_TEMP_OUT_H,
    ITG3200_RA_TEMP_OUT_L, ITG3200_RA_GYRO_XOUT_H, ITG3200_RA_GYRO_XOUT_L,
    ITG3200_RA_GYRO_YOUT_H, ITG3200_RA_GYRO_YOUT_L, ITG3200_RA_GYRO_ZOUT_H,
    ITG3200_RA_GYRO_ZOUT_L, ITG3200_RA_PWR_MGM]
  refine ⟨fun x hx => by omega, fun x hx => by omega, fun x hx => by omega,
    fun x hx => by omega, fun x hx => by omega⟩

/-- Witness for C9 at the concrete all-zero fault-free bus. -/
theorem C9_protocol_constants_witness :
    okBus.trace = [] ∧ (∀ r, okBus.failRead r = false) ∧
    (∀ r, okBus.failWrite r = false) ∧ C9Prop okBus 0x34 true :=
  ⟨rfl, fun _ => rfl, fun _ => rfl,
    C9_protocol_constants okBus 0x34 true rfl (fun _ => rfl) (fun _ => rfl)⟩
